import Mathlib

/-!
Verification of `src/ui/area-measurement-panel.ts` (class `AreaMeasurementPanel`).

The panel is a view-controller: it holds local widget state, renders a snapshot
(`AreaMeasurementData`) supplied by an external tool, and forwards user intent
as named events on a shared bus.  We embed it shallowly:

* numbers are rationals (`ℚ`); the TypeScript `toFixed(3)` presentation layer
  is abstracted by representing each distinct label template as a constructor
  of `LabelText` carrying its raw numeric arguments (the display is an
  injective image of those arguments);
* the panel's mutable fields become a record `PanelState`;
* every click/bus handler is translated statement-by-statement into a list of
  `Step`s — either `fire e` (a call `this.events.fire(...)`) or `mut f`
  (a field assignment or a call to `update`) — executed in source order by
  `runSteps`, which also collects the fired events in firing order.
-/

namespace AreaPanel

/-- 3D point, as consumed by `makePointRow` (source `Vec3` from playcanvas). -/
structure Vec3 where
  x : ℚ
  y : ℚ
  z : ℚ
deriving DecidableEq, Repr

/-- An edge entry of the snapshot; the panel reads only `length` (line 196). -/
structure EdgeEntry where
  length : ℚ
deriving DecidableEq, Repr

/-- Non-planarity metrics (`data.nonPlanarity.max`, `.rms`, lines 208-211). -/
structure NonPlanarity where
  max : ℚ
  rms : ℚ
deriving DecidableEq, Repr

/-- A ridge: an unordered pair of point indices (`r.i`, `r.j`, line 189). -/
structure RidgePair where
  i : ℕ
  j : ℕ
deriving DecidableEq, Repr

/-- A derived sub-surface (`s.area`, `s.indices`, line 227). -/
structure SubSurface where
  area : ℚ
  indices : List ℕ
deriving DecidableEq, Repr

/-- Split result (`data.splitAreas.a`, `.b`, `.total`, line 238). -/
structure SplitAreas where
  a : ℚ
  b : ℚ
  total : ℚ
deriving DecidableEq, Repr

/-- The snapshot `AreaMeasurementData` as the panel accesses it: nullable /
optional fields become `Option` (`??`, `||`, `!== null` and truthiness checks
in `update`). -/
structure AreaMeasurementData where
  points : List Vec3
  edges : List EdgeEntry
  area : Option ℚ
  nonPlanarity : Option NonPlanarity
  ridges : Option (List RidgePair)
  surfaces : Option (List SubSurface)
  surfacesTotal : Option ℚ
  splitSelection : Option (List ℕ)
  splitAreas : Option SplitAreas
deriving DecidableEq, Repr

/-- Every distinct text template the panel ever writes into a label, with its
raw numeric arguments (indices are stored 0-based; the display adds 1). -/
inductive LabelText
  | empty
  | areaDashes
  | areaValue (a : ℚ)
  | nonPlanar (max rms : ℚ)
  | planarityOK (max : ℚ)
  | splitAreasText (a b total : ℚ)
  | pickSecond (idx : ℕ)
  | pickTwo
  | pointLabel (idx : ℕ) (p : Vec3)
  | edgeLabel (idx : ℕ) (len : ℚ)
  | ridgeLabel (idx : ℕ) (i j : ℕ)
  | surfaceLabel (idx : ℕ) (area : ℚ) (indices : List ℕ)
  | surfacesTotalLabel (total : ℚ)
deriving DecidableEq, Repr

/-- Text of the ridge toggle button (`'Start Ridges'` / `'Stop Ridges'`). -/
inductive RidgeBtnText
  | startRidges
  | stopRidges
deriving DecidableEq, Repr

/-- Text of the Add Ridge button (`'Add Ridge'` / `'Stop Adding'`). -/
inductive AddRidgeBtnText
  | addRidge
  | stopAdding
deriving DecidableEq, Repr

/-- Background color of a point row's Pick button (lines 173-174):
selected -> yellow, used in a ridge -> cyan, otherwise the default style. -/
inductive PickColor
  | yellow
  | cyan
  | defaultColor
deriving DecidableEq, Repr

/-- A rendered point row (`makePointRow`): its label, the Pick button color,
and whether the Pick button is appended at all (line 182: only in split mode). -/
structure PointRow where
  label : LabelText
  pickColor : PickColor
  hasPick : Bool
deriving DecidableEq, Repr

/-- The panel's mutable state: the private fields `visible`, `splitMode`,
`lastData`, the two stateful button texts, the constructor-local `addingAuto`,
and the widget contents the renderer writes. -/
structure PanelState where
  visible : Bool
  splitMode : Bool
  lastData : Option AreaMeasurementData
  ridgeToggleText : RidgeBtnText
  addRidgeText : AddRidgeBtnText
  addingAuto : Bool
  areaLabel : LabelText
  planarityLabel : LabelText
  splitResultLabel : LabelText
  pointsRows : List PointRow
  edgesRows : List LabelText
  ridgesRows : List LabelText
deriving DecidableEq, Repr

/-- The state right after the constructor ran (field initializers and the
widget texts set at lines 18-20, 34-36, 41). -/
def initialState : PanelState :=
  { visible := false
  , splitMode := false
  , lastData := none
  , ridgeToggleText := RidgeBtnText.startRidges
  , addRidgeText := AddRidgeBtnText.addRidge
  , addingAuto := false
  , areaLabel := LabelText.areaDashes
  , planarityLabel := LabelText.empty
  , splitResultLabel := LabelText.empty
  , pointsRows := []
  , edgesRows := []
  , ridgesRows := [] }

/-- Source `makePointRow(idx, p, used, selected)` (lines 156-184), restricted to what
it renders: label text, Pick color coding, and whether Pick is appended
(`if (this.splitMode) row.append(pick)`). -/
def makePointRow (splitMode : Bool) (idx : ℕ) (p : Vec3)
    (used selected : List ℕ) : PointRow :=
  { label := LabelText.pointLabel idx p
  , pickColor :=
      if idx ∈ selected then PickColor.yellow
      else if idx ∈ used then PickColor.cyan
      else PickColor.defaultColor
  , hasPick := splitMode }

/-- Source `update(data)` (lines 186-249), as a pure state transformer.  It renders
points, edges, area, planarity, ridges/surfaces and the split-result label,
stores `lastData := data` (line 217), and — only in the `data.splitAreas`
branch — assigns `splitMode := false` (line 240).  The point rows are built
with the `splitMode` read before that assignment, as in the source. -/
def update (s : PanelState) (data : AreaMeasurementData) : PanelState :=
  let used := (data.ridges.getD []).flatMap (fun r => [r.i, r.j])
  let selected := data.splitSelection.getD []
  let pointsRows :=
    data.points.enum.map (fun ip => makePointRow s.splitMode ip.1 ip.2 used selected)
  let edgesRows :=
    data.edges.enum.map (fun ie => LabelText.edgeLabel ie.1 ie.2.length)
  let areaLabel :=
    match data.area with
    | some a => LabelText.areaValue a
    | none => LabelText.areaDashes
  let planarityLabel :=
    match data.nonPlanarity with
    | some np =>
        if np.max > (0.2 : ℚ) then LabelText.nonPlanar np.max np.rms
        else LabelText.planarityOK np.max
    | none => LabelText.empty
  let ridgesRows :=
    (match data.ridges with
     | some rs =>
         if rs.length ≠ 0 then
           rs.enum.map (fun ir => LabelText.ridgeLabel ir.1 ir.2.i ir.2.j)
         else []
     | none => [])
    ++
    (match data.surfaces with
     | some ss =>
         if ss.length ≠ 0 then
           ss.enum.map (fun isf => LabelText.surfaceLabel isf.1 isf.2.area isf.2.indices)
           ++ (match data.surfacesTotal with
               | some t => [LabelText.surfacesTotalLabel t]
               | none => [])
         else []
     | none => [])
  let splitPart : LabelText × Bool :=
    match data.splitAreas with
    | some sa => (LabelText.splitAreasText sa.a sa.b sa.total, false)
    | none =>
        if s.splitMode then
          let sel := data.splitSelection.getD []
          (if sel.length = 1 then LabelText.pickSecond (sel.headD 0)
           else LabelText.pickTwo, s.splitMode)
        else (LabelText.empty, s.splitMode)
  { s with
    lastData := some data
  , splitMode := splitPart.2
  , areaLabel := areaLabel
  , planarityLabel := planarityLabel
  , splitResultLabel := splitPart.1
  , pointsRows := pointsRows
  , edgesRows := edgesRows
  , ridgesRows := ridgesRows }

/-- Every event the panel ever fires on the bus, one constructor per distinct
`this.events.fire(...)` call target; `redo` and `splitSelect` carry the point
index argument. -/
inductive FiredEvent
  | disableTemporary
  | clear
  | closePolygon
  | exit
  | ridgeStart
  | ridgeStop
  | redo (idx : ℕ)
  | splitSelect (idx : ℕ)
  | splitCancel
  | splitUndo
  | splitClearAll
deriving DecidableEq, Repr

/-- The bus name string each fired event is published under. -/
def FiredEvent.name : FiredEvent → String
  | FiredEvent.disableTemporary => "area.measure.disable.temporary"
  | FiredEvent.clear => "area.measure.clear"
  | FiredEvent.closePolygon => "area.measure.closePolygon"
  | FiredEvent.exit => "area.measure.exit"
  | FiredEvent.ridgeStart => "area.measure.ridge.start"
  | FiredEvent.ridgeStop => "area.measure.ridge.stop"
  | FiredEvent.redo _ => "area.measure.redo"
  | FiredEvent.splitSelect _ => "area.measure.split.select"
  | FiredEvent.splitCancel => "area.measure.split.cancel"
  | FiredEvent.splitUndo => "area.measure.split.undo"
  | FiredEvent.splitClearAll => "area.measure.split.clearAll"

/-- The event names the spec lists as produced by the panel. -/
def producedNames : List String :=
  [ "area.measure.disable.temporary"
  , "area.measure.clear"
  , "area.measure.closePolygon"
  , "area.measure.exit"
  , "area.measure.ridge.start"
  , "area.measure.ridge.stop"
  , "area.measure.redo"
  , "area.measure.split.select"
  , "area.measure.split.cancel"
  , "area.measure.split.undo"
  , "area.measure.split.clearAll" ]

/-- The names passed to `this.events.on(...)` in the constructor, in source
order (lines 130, 131, 132, 133, 135, 137, 146; `show` and `updated` are each
registered twice). -/
def subscribedNames : List String :=
  [ "area.measure.updated"
  , "area.measure.show"
  , "area.measure.hide"
  , "area.measure.show"
  , "area.measure.updated"
  , "area.measure.split.cancel"
  , "area.measure.ridge.stop" ]

/-- The event names the spec lists as consumed by the panel. -/
def consumedNames : List String :=
  [ "area.measure.updated"
  , "area.measure.show"
  , "area.measure.hide"
  , "area.measure.split.cancel"
  , "area.measure.ridge.stop" ]

/-- One statement of a handler body: either a `this.events.fire(...)` call or
a state mutation (field assignment / call to `update` or `show`/`hide`
internals). -/
inductive Step
  | fire (e : FiredEvent)
  | mut (f : PanelState → PanelState)

/-- Execute a handler body: perform the steps in order, collecting the fired
events in firing order. -/
def runSteps (s : PanelState) : List Step → PanelState × List FiredEvent
  | [] => (s, [])
  | Step.fire e :: rest =>
      let r := runSteps s rest
      (r.1, e :: r.2)
  | Step.mut f :: rest => runSteps (f s) rest

/-- The state reached when execution is about to fire `target` for the first
time (used to state what held *before* an event was fired). -/
def runUntilFire (target : FiredEvent) (s : PanelState) : List Step → PanelState
  | [] => s
  | Step.fire e :: rest =>
      if e = target then s else runUntilFire target s rest
  | Step.mut f :: rest => runUntilFire target (f s) rest

/-- Re-render from the cached snapshot:
`if (this.lastData) this.update(this.lastData)` (lines 76, 143, 151). -/
def rerenderLast (t : PanelState) : PanelState :=
  match t.lastData with
  | some d => update t d
  | none => t

/-- The Clear button handler (lines 50-61). -/
def clearSteps (s : PanelState) : List Step :=
  [Step.fire FiredEvent.disableTemporary]
  ++ (if s.splitMode then [Step.mut (fun t => { t with splitMode := false })] else [])
  ++ [ Step.mut (fun t => { t with ridgeToggleText := RidgeBtnText.startRidges })
     , Step.fire FiredEvent.ridgeStop
     , Step.fire FiredEvent.splitCancel
     , Step.fire FiredEvent.clear ]

/-- The Close Polygon button handler (line 62). -/
def closeSteps : List Step :=
  [Step.fire FiredEvent.disableTemporary, Step.fire FiredEvent.closePolygon]

/-- The Close (exit) button handler (line 63). -/
def exitSteps : List Step :=
  [Step.fire FiredEvent.disableTemporary, Step.fire FiredEvent.exit]

/-- The ridge toggle button handler (lines 65-77).  The source flips
`splitMode` first and then branches on the *new* value, i.e. on the negation
of the value at entry. -/
def ridgeToggleSteps (s : PanelState) : List Step :=
  [ Step.fire FiredEvent.disableTemporary
  , Step.mut (fun t => { t with splitMode := !t.splitMode }) ]
  ++ (if !s.splitMode then
        [ Step.mut (fun t => { t with ridgeToggleText := RidgeBtnText.stopRidges })
        , Step.fire FiredEvent.ridgeStart ]
      else
        [ Step.mut (fun t => { t with ridgeToggleText := RidgeBtnText.startRidges })
        , Step.fire FiredEvent.ridgeStop ])
  ++ [Step.mut rerenderLast]

/-- The Add Ridge button handler (lines 90-104); `addingAuto` is flipped and
the branch taken is on the *new* value. -/
def addRidgeSteps (s : PanelState) : List Step :=
  [Step.fire FiredEvent.disableTemporary]
  ++ (if !s.splitMode then [Step.mut (fun t => { t with splitMode := true })] else [])
  ++ [Step.mut (fun t => { t with addingAuto := !t.addingAuto })]
  ++ (if !s.addingAuto then
        [ Step.mut (fun t => { t with addRidgeText := AddRidgeBtnText.stopAdding })
        , Step.fire FiredEvent.ridgeStart ]
      else
        [ Step.mut (fun t => { t with addRidgeText := AddRidgeBtnText.addRidge })
        , Step.fire FiredEvent.ridgeStop ])

/-- The Undo Ridge button handler (line 105). -/
def undoRidgeSteps : List Step :=
  [Step.fire FiredEvent.disableTemporary, Step.fire FiredEvent.splitUndo]

/-- The Clear Ridges button handler (line 106). -/
def clearRidgesSteps : List Step :=
  [Step.fire FiredEvent.disableTemporary, Step.fire FiredEvent.splitClearAll]

/-- A point row's `doRedo` handler (lines 161-164). -/
def doRedoSteps (idx : ℕ) : List Step :=
  [Step.fire FiredEvent.disableTemporary, Step.fire (FiredEvent.redo idx)]

/-- A point row's `doPick` handler (lines 165-169): an early return when
`splitMode` is false at click time. -/
def doPickSteps (s : PanelState) (idx : ℕ) : List Step :=
  if s.splitMode then
    [Step.fire FiredEvent.disableTemporary, Step.fire (FiredEvent.splitSelect idx)]
  else []

/-- The combined `area.measure.updated` reaction: the handler at line 130
(`this.update(data)`) followed by the one at line 135
(`this.lastData = d`), in registration order. -/
def updatedSteps (d : AreaMeasurementData) : List Step :=
  [ Step.mut (fun t => update t d)
  , Step.mut (fun t => { t with lastData := some d }) ]

/-- Source `show()` (line 256); registered twice for `area.measure.show`, but
idempotent. -/
def showSteps (s : PanelState) : List Step :=
  if !s.visible then [Step.mut (fun t => { t with visible := true })] else []

/-- Source `hide()` (lines 257-272). -/
def hideSteps (s : PanelState) : List Step :=
  if s.visible then
    [Step.mut (fun t => { t with visible := false })]
    ++ (if s.splitMode then [Step.mut (fun t => { t with splitMode := false })] else [])
    ++ [ Step.mut (fun t => { t with ridgeToggleText := RidgeBtnText.startRidges })
       , Step.mut (fun t => { t with splitResultLabel := LabelText.empty })
       , Step.mut (fun t => { t with planarityLabel := LabelText.empty })
       , Step.fire FiredEvent.ridgeStop
       , Step.fire FiredEvent.splitCancel ]
  else []

/-- The `area.measure.split.cancel` subscription (lines 137-145). -/
def splitCancelSteps (s : PanelState) : List Step :=
  if s.splitMode then
    [ Step.mut (fun t => { t with splitMode := false })
    , Step.mut (fun t => { t with ridgeToggleText := RidgeBtnText.startRidges })
    , Step.mut (fun t => { t with splitResultLabel := LabelText.empty })
    , Step.mut rerenderLast ]
  else []

/-- The `area.measure.ridge.stop` subscription (lines 146-153). -/
def ridgeStopSteps (s : PanelState) : List Step :=
  if s.splitMode then
    [ Step.mut (fun t => { t with splitMode := false })
    , Step.mut (fun t => { t with ridgeToggleText := RidgeBtnText.startRidges })
    , Step.mut rerenderLast ]
  else []

/-- Run a handler whose body depends on the entry state. -/
def runH (body : PanelState → List Step) (s : PanelState) :
    PanelState × List FiredEvent :=
  runSteps s (body s)

def clearClick (s : PanelState) : PanelState × List FiredEvent :=
  runH clearSteps s

def closeClick (s : PanelState) : PanelState × List FiredEvent :=
  runSteps s closeSteps

def exitClick (s : PanelState) : PanelState × List FiredEvent :=
  runSteps s exitSteps

def ridgeToggleClick (s : PanelState) : PanelState × List FiredEvent :=
  runH ridgeToggleSteps s

def addRidgeClick (s : PanelState) : PanelState × List FiredEvent :=
  runH addRidgeSteps s

def undoRidgeClick (s : PanelState) : PanelState × List FiredEvent :=
  runSteps s undoRidgeSteps

def clearRidgesClick (s : PanelState) : PanelState × List FiredEvent :=
  runSteps s clearRidgesSteps

def redoClick (s : PanelState) (idx : ℕ) : PanelState × List FiredEvent :=
  runSteps s (doRedoSteps idx)

def pickClick (s : PanelState) (idx : ℕ) : PanelState × List FiredEvent :=
  runSteps s (doPickSteps s idx)

def updatedRun (s : PanelState) (d : AreaMeasurementData) :
    PanelState × List FiredEvent :=
  runSteps s (updatedSteps d)

def showRun (s : PanelState) : PanelState × List FiredEvent :=
  runH showSteps s

def hideRun (s : PanelState) : PanelState × List FiredEvent :=
  runH hideSteps s

def splitCancelRun (s : PanelState) : PanelState × List FiredEvent :=
  runH splitCancelSteps s

def ridgeStopRun (s : PanelState) : PanelState × List FiredEvent :=
  runH ridgeStopSteps s

/-- All events the component can fire across its click handlers, `hide`, and
the bus-event reactions, gathered from one state, one snapshot and one point
index. -/
def componentFired (s : PanelState) (d : AreaMeasurementData) (i : ℕ) :
    List FiredEvent :=
  (clearClick s).2 ++ (closeClick s).2 ++ (exitClick s).2
  ++ (ridgeToggleClick s).2 ++ (addRidgeClick s).2 ++ (undoRidgeClick s).2
  ++ (clearRidgesClick s).2 ++ (redoClick s i).2 ++ (pickClick s i).2
  ++ (updatedRun s d).2 ++ (showRun s).2 ++ (hideRun s).2
  ++ (splitCancelRun s).2 ++ (ridgeStopRun s).2

/-- The widget contents a re-render writes: everything the user sees that
depends on the snapshot, plus the ridge toggle text. -/
structure RenderedView where
  pointsRows : List PointRow
  edgesRows : List LabelText
  areaLabel : LabelText
  planarityLabel : LabelText
  splitResultLabel : LabelText
  ridgesRows : List LabelText
  ridgeToggleText : RidgeBtnText
deriving DecidableEq, Repr

/-- Project the rendered widget contents out of the panel state. -/
def rendered (s : PanelState) : RenderedView :=
  { pointsRows := s.pointsRows
  , edgesRows := s.edgesRows
  , areaLabel := s.areaLabel
  , planarityLabel := s.planarityLabel
  , splitResultLabel := s.splitResultLabel
  , ridgesRows := s.ridgesRows
  , ridgeToggleText := s.ridgeToggleText }

/-- Store-level reading of `update` (lines 186-249): the store pairs the panel
fields with the snapshot object that was passed in.  Re-tracing the body
statement by statement, every statement only reads `data` (field accesses) and
writes panel/widget state; no statement assigns to any field of `data`, so the
snapshot slot comes out exactly as it went in. -/
def updateS (st : PanelState × AreaMeasurementData) :
    PanelState × AreaMeasurementData :=
  (update st.1 st.2, st.2)

/-- A fired-event trace whose first element is `area.measure.disable.temporary`. -/
def headIsDisable (l : List FiredEvent) : Prop :=
  l.head? = some FiredEvent.disableTemporary

/-- The empty snapshot (no points, no edges, every optional field absent). -/
def dMin : AreaMeasurementData :=
  { points := []
  , edges := []
  , area := none
  , nonPlanarity := none
  , ridges := none
  , surfaces := none
  , surfacesTotal := none
  , splitSelection := none
  , splitAreas := none }

/-- A populated snapshot used for concrete witnesses (no split result yet). -/
def dEx : AreaMeasurementData :=
  { points := [⟨0, 0, 0⟩, ⟨1, 0, 0⟩, ⟨1, 1, 0⟩]
  , edges := [⟨1⟩, ⟨1⟩]
  , area := some 2
  , nonPlanarity := some ⟨1/10, 1/20⟩
  , ridges := some [⟨0, 2⟩]
  , surfaces := some [⟨1, [0, 1, 2]⟩]
  , surfacesTotal := some 2
  , splitSelection := some [0]
  , splitAreas := none }

/-- A snapshot carrying a split result. -/
def dSA : AreaMeasurementData :=
  { dMin with splitAreas := some ⟨1, 2, 3⟩ }

/-- A snapshot whose non-planarity max exceeds the 0.2 threshold. -/
def dNP : AreaMeasurementData :=
  { dMin with nonPlanarity := some ⟨1/2, 1/4⟩ }

/-- A visible panel in split mode holding `dEx` as its last snapshot. -/
def sEx : PanelState :=
  { initialState with
    visible := true
  , splitMode := true
  , lastData := some dEx }

/-- Like `sEx` but with different stale widget contents, to witness that a
re-render depends only on the cached snapshot and the split-mode flag. -/
def sEx2 : PanelState :=
  { initialState with
    visible := true
  , splitMode := true
  , lastData := some dEx
  , areaLabel := LabelText.areaValue 7
  , splitResultLabel := LabelText.pickTwo
  , ridgesRows := [LabelText.ridgeLabel 0 1 2] }

/-- A visible panel with split mode off. -/
def sVis : PanelState :=
  { initialState with visible := true }

/-! ## Theorems -/

/-- Helper: the name of every constructor of `FiredEvent` is one of the
eleven names the spec lists as produced. -/
theorem name_mem_produced (e : FiredEvent) : e.name ∈ producedNames := by
  cases e <;> simp only [FiredEvent.name] <;> decide

/-- Helper: the rendered view produced by `update` depends on the entry state
only through `splitMode` (which gates point-row Pick buttons and the
split-result label) and `ridgeToggleText` (which `update` leaves alone). -/
theorem rendered_update_congr (t₁ t₂ : PanelState) (d : AreaMeasurementData)
    (hm : t₁.splitMode = t₂.splitMode)
    (ht : t₁.ridgeToggleText = t₂.ridgeToggleText) :
    rendered (update t₁ d) = rendered (update t₂ d) := by
  simp only [rendered, update, hm, ht]

/-- C1: clicking a point's Pick button fires `area.measure.split.select` with
that point's index exactly when `splitMode` is true at click time, and fires
nothing at all when `splitMode` is false. -/
theorem pick_forwarding (s : PanelState) (i : ℕ) :
    ((FiredEvent.splitSelect i ∈ (pickClick s i).2) ↔ s.splitMode = true) ∧
    (s.splitMode = false → (pickClick s i).2 = []) := by
  constructor
  · cases h : s.splitMode <;>
      simp [pickClick, doPickSteps, runSteps, h]
  · intro h
    simp [pickClick, doPickSteps, runSteps, h]

/-- Witness for C1 at `splitMode = true` (index 0) and `splitMode = false`. -/
theorem pick_forwarding_witness :
    (FiredEvent.splitSelect 0 ∈ (pickClick sEx 0).2) ∧
    (pickClick initialState 0).2 = [] :=
  ⟨(pick_forwarding sEx 0).1.mpr rfl, (pick_forwarding initialState 0).2 rfl⟩

/-- C2: the Clear button fires exactly `disable.temporary`, `ridge.stop`,
`split.cancel`, `clear` in that order, and when `ridge.stop` is fired the
panel has already set `splitMode` to false and reset the ridge toggle text to
'Start Ridges'. -/
theorem clear_click_spec (s : PanelState) :
    (clearClick s).2 =
      [FiredEvent.disableTemporary, FiredEvent.ridgeStop,
       FiredEvent.splitCancel, FiredEvent.clear] ∧
    (runUntilFire FiredEvent.ridgeStop s (clearSteps s)).splitMode = false ∧
    (runUntilFire FiredEvent.ridgeStop s (clearSteps s)).ridgeToggleText =
      RidgeBtnText.startRidges := by
  cases h : s.splitMode <;>
    simp [clearClick, runH, clearSteps, runSteps, runUntilFire, h]

/-- C3: every event the component ever fires — over all button clicks, point
row clicks, the ridge toggle, the bus reactions and `hide()` — is published
under one of the eleven names the spec lists as produced. -/
theorem fired_names (s : PanelState) (d : AreaMeasurementData) (i : ℕ)
    (e : FiredEvent) (_he : e ∈ componentFired s d i) :
    e.name ∈ producedNames :=
  name_mem_produced e

/-- Witness for C3: the Clear click's first event is in the fired pool of a
concrete run and its name is in the produced list. -/
theorem fired_names_witness :
    FiredEvent.disableTemporary.name ∈ producedNames :=
  fired_names initialState dMin 0 FiredEvent.disableTemporary (by decide)

/-- C4: the set of event names subscribed to in the constructor is exactly
the five names the spec lists as consumed (two of them are registered twice,
but no sixth name occurs). -/
theorem subscriptions_exact :
    (∀ n ∈ subscribedNames, n ∈ consumedNames) ∧
    (∀ n ∈ consumedNames, n ∈ subscribedNames) := by
  decide

/-- Witness for C4 at the concrete name string of the updated event. -/
theorem subscriptions_exact_witness :
    "area.measure.updated" ∈ consumedNames :=
  subscriptions_exact.1 "area.measure.updated" (by decide)

/-- C5: once `hide()` has run on a visible panel, a late `ridge.stop` or
`split.cancel` bus event leaves the entire panel state unchanged and fires
nothing. -/
theorem late_stop_ignored (s : PanelState) (hv : s.visible = true) :
    ridgeStopRun (hideRun s).1 = ((hideRun s).1, []) ∧
    splitCancelRun (hideRun s).1 = ((hideRun s).1, []) := by
  have hsm : (hideRun s).1.splitMode = false := by
    cases h : s.splitMode <;>
      simp [hideRun, runH, hideSteps, runSteps, hv, h]
  constructor <;>
    simp [ridgeStopRun, splitCancelRun, runH, ridgeStopSteps, splitCancelSteps,
      hsm, runSteps]

/-- Witness for C5 on a concrete visible panel. -/
theorem late_stop_ignored_witness :
    ridgeStopRun (hideRun sEx).1 = ((hideRun sEx).1, []) ∧
    splitCancelRun (hideRun sEx).1 = ((hideRun sEx).1, []) :=
  late_stop_ignored sEx rfl

/-- Helper: re-rendering from a cached snapshot is a call to `update` on it. -/
theorem rerenderLast_some (t : PanelState) (d : AreaMeasurementData)
    (h : t.lastData = some d) : rerenderLast t = update t d := by
  simp [rerenderLast, h]

/-- Helper: the state after a ridge toggle click is a re-render of the entry
state with `splitMode` flipped and the toggle text matching the new mode. -/
theorem ridgeToggle_state (s : PanelState) :
    (ridgeToggleClick s).1 =
      rerenderLast
        { s with
          splitMode := !s.splitMode
        , ridgeToggleText :=
            if !s.splitMode then RidgeBtnText.stopRidges
            else RidgeBtnText.startRidges } := by
  cases h : s.splitMode <;>
    simp [ridgeToggleClick, runH, ridgeToggleSteps, runSteps, h]

/-- Helper: the state after the `split.cancel` reaction in split mode is a
re-render of the entry state with split mode left and the split UI reset. -/
theorem splitCancel_state (s : PanelState) (h : s.splitMode = true) :
    (splitCancelRun s).1 =
      rerenderLast
        { s with
          splitMode := false
        , ridgeToggleText := RidgeBtnText.startRidges
        , splitResultLabel := LabelText.empty } := by
  simp [splitCancelRun, runH, splitCancelSteps, runSteps, h]

/-- C6: after the `area.measure.updated` reaction with snapshot `d` the cached
`lastData` is exactly `d`; and the re-renders triggered by a ridge-toggle
click or a split cancellation are computed from the cached snapshot alone —
two panels caching the same snapshot in the same split mode render the same
view, whatever other stale contents they held. -/
theorem lastData_cache (s : PanelState) (d : AreaMeasurementData) :
    ((updatedRun s d).1.lastData = some d) ∧
    (∀ s₁ s₂ : PanelState, s₁.lastData = some d → s₂.lastData = some d →
      s₁.splitMode = s₂.splitMode →
      (rendered (ridgeToggleClick s₁).1 = rendered (ridgeToggleClick s₂).1 ∧
       (s₁.splitMode = true →
        rendered (splitCancelRun s₁).1 = rendered (splitCancelRun s₂).1))) := by
  constructor
  · simp [updatedRun, updatedSteps, runSteps]
  · intro s₁ s₂ h₁ h₂ hm
    constructor
    · rw [ridgeToggle_state s₁, ridgeToggle_state s₂,
        rerenderLast_some _ d (by simp [h₁]), rerenderLast_some _ d (by simp [h₂])]
      exact rendered_update_congr _ _ d (by simp [hm]) (by simp [hm])
    · intro hsm
      have hsm₂ : s₂.splitMode = true := hm ▸ hsm
      rw [splitCancel_state s₁ hsm, splitCancel_state s₂ hsm₂,
        rerenderLast_some _ d (by simp [h₁]), rerenderLast_some _ d (by simp [h₂])]
      exact rendered_update_congr _ _ d (by simp) (by simp)

/-- Witness for C6: two concrete panels caching `dEx` with different stale
widget contents render identically after a ridge toggle click. -/
theorem lastData_cache_witness :
    rendered (ridgeToggleClick sEx).1 = rendered (ridgeToggleClick sEx2).1 :=
  ((lastData_cache sEx dEx).2 sEx sEx2 rfl rfl rfl).1

/-- C7: `update` treats the snapshot as immutable — across the store-level
reading of the call every field of the snapshot comes out unchanged — and it
only reads the snapshot and writes widget state: the updated reaction fires no
events, and the non-widget fields `visible`, `addingAuto`, `addRidgeText` are
untouched. -/
theorem update_snapshot_immutable (s : PanelState) (d : AreaMeasurementData) :
    ((updateS (s, d)).2.points = d.points ∧
     (updateS (s, d)).2.edges = d.edges ∧
     (updateS (s, d)).2.area = d.area ∧
     (updateS (s, d)).2.nonPlanarity = d.nonPlanarity ∧
     (updateS (s, d)).2.ridges = d.ridges ∧
     (updateS (s, d)).2.surfaces = d.surfaces ∧
     (updateS (s, d)).2.surfacesTotal = d.surfacesTotal ∧
     (updateS (s, d)).2.splitSelection = d.splitSelection ∧
     (updateS (s, d)).2.splitAreas = d.splitAreas) ∧
    (updatedRun s d).2 = [] ∧
    ((update s d).visible = s.visible ∧
     (update s d).addingAuto = s.addingAuto ∧
     (update s d).addRidgeText = s.addRidgeText) := by
  refine ⟨⟨rfl, rfl, rfl, rfl, rfl, rfl, rfl, rfl, rfl⟩, ?_, ⟨?_, ?_, ?_⟩⟩
  · simp [updatedRun, updatedSteps, runSteps]
  all_goals simp [update]

/-- C8: when the snapshot carries a split result, `update` writes the
`Split areas: a + b = total` text, forces `splitMode` off, and leaves the
ridge toggle button's text alone. -/
theorem split_result_branch (s : PanelState) (d : AreaMeasurementData)
    (sa : SplitAreas) (h : d.splitAreas = some sa) :
    (update s d).splitResultLabel = LabelText.splitAreasText sa.a sa.b sa.total ∧
    (update s d).splitMode = false ∧
    (update s d).ridgeToggleText = s.ridgeToggleText := by
  refine ⟨?_, ?_, rfl⟩ <;> simp [update, h]

/-- Witness for C8 on a concrete snapshot with split result (1, 2, 3). -/
theorem split_result_branch_witness :
    (update initialState dSA).splitResultLabel = LabelText.splitAreasText 1 2 3 ∧
    (update initialState dSA).splitMode = false ∧
    (update initialState dSA).ridgeToggleText = initialState.ridgeToggleText :=
  split_result_branch initialState dSA ⟨1, 2, 3⟩ rfl

/-- C9: `update` writes the `Non-planar: max .., rms ..` text exactly when
non-planarity metrics are present with `max` above the fixed 0.2 cutoff, the
`Planarity OK (max ..)` text when they are present with `max` at most 0.2, and
the empty string when they are absent. -/
theorem planarity_branch (s : PanelState) (d : AreaMeasurementData) :
    (∀ np : NonPlanarity, d.nonPlanarity = some np →
      (((0.2 : ℚ) < np.max →
         (update s d).planarityLabel = LabelText.nonPlanar np.max np.rms) ∧
       (np.max ≤ (0.2 : ℚ) →
         (update s d).planarityLabel = LabelText.planarityOK np.max))) ∧
    (d.nonPlanarity = none → (update s d).planarityLabel = LabelText.empty) := by
  constructor
  · intro np h
    constructor
    · intro hgt
      simp [update, h, hgt]
    · intro hle
      have hnot : ¬ ((0.2 : ℚ) < np.max) := not_lt.mpr hle
      simp [update, h, hnot]
  · intro h
    simp [update, h]

/-- Witness for C9: one snapshot above the threshold, one below, one with the
metrics absent. -/
theorem planarity_branch_witness :
    (update initialState dNP).planarityLabel = LabelText.nonPlanar (1/2) (1/4) ∧
    (update initialState dEx).planarityLabel = LabelText.planarityOK (1/10) ∧
    (update initialState dMin).planarityLabel = LabelText.empty :=
  ⟨((planarity_branch initialState dNP).1 ⟨1/2, 1/4⟩ rfl).1 (by norm_num),
   ((planarity_branch initialState dEx).1 ⟨1/10, 1/20⟩ rfl).2 (by norm_num),
   (planarity_branch initialState dMin).2 rfl⟩

/-- C10: every click handler fires `area.measure.disable.temporary` before any
other event: each of Clear, Close Polygon, Close, the ridge toggle, Add Ridge,
Undo Ridge, Clear Ridges and Redo fires it first, and Pick fires it first
whenever split mode is on (otherwise Pick fires nothing at all). -/
theorem disable_first (s : PanelState) (idx : ℕ) :
    headIsDisable (clearClick s).2 ∧
    headIsDisable (closeClick s).2 ∧
    headIsDisable (exitClick s).2 ∧
    headIsDisable (ridgeToggleClick s).2 ∧
    headIsDisable (addRidgeClick s).2 ∧
    headIsDisable (undoRidgeClick s).2 ∧
    headIsDisable (clearRidgesClick s).2 ∧
    headIsDisable (redoClick s idx).2 ∧
    (∀ s' : PanelState, s'.splitMode = true → headIsDisable (pickClick s' idx).2) := by
  refine ⟨?_, ?_, ?_, ?_, ?_, ?_, ?_, ?_, ?_⟩
  · cases h : s.splitMode <;>
      simp [headIsDisable, clearClick, runH, clearSteps, runSteps, h]
  · simp [headIsDisable, closeClick, closeSteps, runSteps]
  · simp [headIsDisable, exitClick, exitSteps, runSteps]
  · cases h : s.splitMode <;>
      simp [headIsDisable, ridgeToggleClick, runH, ridgeToggleSteps, runSteps, h]
  · cases h : s.splitMode <;> cases h2 : s.addingAuto <;>
      simp [headIsDisable, addRidgeClick, runH, addRidgeSteps, runSteps, h, h2]
  · simp [headIsDisable, undoRidgeClick, undoRidgeSteps, runSteps]
  · simp [headIsDisable, clearRidgesClick, clearRidgesSteps, runSteps]
  · simp [headIsDisable, redoClick, doRedoSteps, runSteps]
  · intro s' hs
    simp [headIsDisable, pickClick, doPickSteps, runSteps, hs]

/-- Witness for C10: a Pick click on a concrete split-mode panel leads with
the disable event. -/
theorem disable_first_witness :
    headIsDisable (pickClick sEx 0).2 :=
  (disable_first sEx 0).2.2.2.2.2.2.2.2 sEx rfl

end AreaPanel
